import Mathlib

/-
Verification of the shrike-guard-python scan orchestration and verdict
sanitization core, shallowly embedded from the repository sources:
  src/shrike_guard/sanitizer.py, scanner.py, anthropic_client.py,
  async_client.py, config.py, exceptions.py.
Python runtime values are modelled by the inductive `Val`; Python code that
can raise is modelled in the `Except String` monad, the error string naming
the raised exception.  Numeric scores are modelled by rationals; every
numeric literal compared in the source (0.9, 0.7, 1.0) and every score
appearing in a claim is a short decimal, for which rational comparison
agrees with IEEE double comparison.
-/

namespace ShrikeGuard

/-- Values of the dynamically typed Python fragment the SDK manipulates:
None, booleans, numbers, strings, lists and string-keyed dicts. -/
inductive Val : Type where
  | null : Val
  | bool : Bool → Val
  | num : ℚ → Val
  | str : String → Val
  | list : List Val → Val
  | dict : List (String × Val) → Val

/-- Python dicts with string keys, as association lists (keys unique in
every dict the source constructs). -/
abbrev RawDict := List (String × Val)

/-- Lookup of a key in a dict; `none` models an absent key. -/
def getVal : RawDict → String → Option Val
  | [], _ => none
  | (k, v) :: rest, key => if key = k then some v else getVal rest key

/-- Python `d.get(key, dflt)`: the stored value when the key is present
(even when that value is None), otherwise the default. -/
def getValD (d : RawDict) (key : String) (dflt : Val) : Val :=
  (getVal d key).getD dflt

/-- Python `d.get(key)`: absent keys yield None. -/
def pyGet (d : RawDict) (key : String) : Val :=
  getValD d key .null

/-- Python truthiness for the modelled value types. -/
def truthy : Val → Bool
  | .null => false
  | .bool b => b
  | .num q => !(q == 0)
  | .str s => !s.isEmpty
  | .list xs => !xs.isEmpty
  | .dict kvs => !kvs.isEmpty

/-- ASCII lowering of one character, as Python `str.lower` acts on the
ASCII range (all inputs reaching the lookup tables are ASCII). -/
def pyLowerChar (c : Char) : Char :=
  if 'A' ≤ c && c ≤ 'Z' then Char.ofNat (c.toNat + 32) else c

/-- Python `s.lower()` on ASCII strings. -/
def pyLower (s : String) : String :=
  String.mk (s.data.map pyLowerChar)

/-- One character of `s.lower().replace("-", "_")` from
`normalize_threat_type` (sanitizer.py line 187). -/
def pyNormChar (c : Char) : Char :=
  let l := pyLowerChar c
  if l = '-' then '_' else l

/-- Python `s.lower().replace("-", "_")` (sanitizer.py line 187). -/
def pyNormStr (s : String) : String :=
  String.mk (s.data.map pyNormChar)

/-- Lookup in a string-to-string table, as Python `Dict[str, str].get`. -/
def lookupStr : List (String × String) → String → Option String
  | [], _ => none
  | (k, v) :: rest, key => if key = k then some v else lookupStr rest key

/-- THREAT_TYPE_MAP from sanitizer.py lines 11-120: the fixed many-to-one
table from internal labels to canonical threat categories. -/
def THREAT_TYPE_MAP : List (String × String) := [
  ("prompt_injection", "prompt_injection"),
  ("injection", "prompt_injection"),
  ("inject", "prompt_injection"),
  ("instruction_override", "prompt_injection"),
  ("role_hijacking", "prompt_injection"),
  ("context_manipulation", "prompt_injection"),
  ("token_manipulation", "prompt_injection"),
  ("indirect_injection", "prompt_injection"),
  ("context_poisoning", "prompt_injection"),
  ("function_injection", "prompt_injection"),
  ("memory_injection", "prompt_injection"),
  ("topic_mismatch", "prompt_injection"),
  ("jailbreak", "jailbreak"),
  ("jailbreak_attempt", "jailbreak"),
  ("safety_bypass", "jailbreak"),
  ("roleplay", "jailbreak"),
  ("hypothetical", "jailbreak"),
  ("completion_baiting", "jailbreak"),
  ("override", "jailbreak"),
  ("manipulate", "jailbreak"),
  ("tonality_drift_profanity", "jailbreak"),
  ("tonality_drift_casual", "jailbreak"),
  ("tonality_drift_hostile", "jailbreak"),
  ("system_prompt_leak", "system_prompt_leak"),
  ("system_prompt_extraction", "system_prompt_leak"),
  ("data_exfiltration", "data_exfiltration"),
  ("exfiltration", "data_exfiltration"),
  ("exfiltrate", "data_exfiltration"),
  ("extract", "data_exfiltration"),
  ("data_leak", "data_exfiltration"),
  ("information_disclosure", "data_exfiltration"),
  ("credential_extraction", "data_exfiltration"),
  ("sql_injection", "sql_injection"),
  ("sqli", "sql_injection"),
  ("tautology", "sql_injection"),
  ("tautology_or", "sql_injection"),
  ("tautology_and", "sql_injection"),
  ("union_injection", "sql_injection"),
  ("stacked_query", "sql_injection"),
  ("path_traversal", "path_traversal"),
  ("directory_traversal", "path_traversal"),
  ("path_violation", "path_traversal"),
  ("file_access", "path_traversal"),
  ("sensitive_path", "path_traversal"),
  ("sensitive_extension", "path_traversal"),
  ("blocked_extension", "path_traversal"),
  ("secrets_exposure", "secrets_exposure"),
  ("secrets", "secrets_exposure"),
  ("api_key", "secrets_exposure"),
  ("credential", "secrets_exposure"),
  ("sensitive_file", "secrets_exposure"),
  ("content_violation", "secrets_exposure"),
  ("sensitive_content", "secrets_exposure"),
  ("secret_key", "secrets_exposure"),
  ("aws_key", "secrets_exposure"),
  ("private_key", "secrets_exposure"),
  ("pii_exposure", "pii_exposure"),
  ("pii", "pii_exposure"),
  ("pii_leak", "pii_exposure"),
  ("personal_data", "pii_exposure"),
  ("pii_in_search", "pii_exposure"),
  ("pii_extraction", "pii_exposure"),
  ("ssn", "pii_exposure"),
  ("credit_card", "pii_exposure"),
  ("email_exposure", "pii_exposure"),
  ("phone_number", "pii_exposure"),
  ("unexpected_pii_leakage", "pii_exposure"),
  ("blocked_domain", "blocked_domain"),
  ("suspicious_tld", "blocked_domain"),
  ("suspicious_domain", "blocked_domain"),
  ("malicious_url", "blocked_domain"),
  ("toxicity", "toxicity"),
  ("harmful_content", "toxicity"),
  ("malicious_content", "malicious_code"),
  ("malicious_code", "malicious_code"),
  ("reverse_shell", "malicious_code"),
  ("web_shell", "malicious_code"),
  ("fork_bomb", "malicious_code"),
  ("crypto_miner", "malicious_code"),
  ("persistence", "malicious_code"),
  ("shell_injection", "malicious_code"),
  ("harmful_intent", "harmful_intent"),
  ("dangerous_request", "harmful_intent"),
  ("social_engineering", "social_engineering"),
  ("emotional", "social_engineering"),
  ("authority_claim", "social_engineering"),
  ("privilege_escalation", "privilege_escalation"),
  ("destructive_operation", "destructive_operation"),
  ("scan_error", "scan_error"),
  ("size_limit_exceeded", "size_limit_exceeded"),
  ("size_limit", "size_limit_exceeded"),
  ("timeout", "scan_error")]

/-- THREAT_GUIDANCE from sanitizer.py lines 123-142. -/
def THREAT_GUIDANCE : List (String × String) := [
  ("prompt_injection", "This prompt contains patterns consistent with instruction override attempts."),
  ("jailbreak", "This prompt attempts to bypass safety guidelines. The request has been blocked."),
  ("system_prompt_leak", "The response contains system prompt disclosure. The response has been blocked."),
  ("data_exfiltration", "This prompt may attempt to extract sensitive information."),
  ("sql_injection", "This query contains potentially dangerous SQL patterns."),
  ("path_traversal", "This file path attempts to access directories outside the allowed scope."),
  ("secrets_exposure", "This content contains patterns matching API keys, tokens, or credentials."),
  ("pii_exposure", "This content contains personally identifiable information."),
  ("blocked_domain", "This web search targets a restricted domain."),
  ("toxicity", "This content contains potentially harmful or inappropriate language."),
  ("malicious_code", "This content contains patterns associated with malicious code."),
  ("harmful_intent", "This request contains content associated with harmful intent."),
  ("social_engineering", "This prompt contains social engineering patterns."),
  ("privilege_escalation", "This query attempts to escalate privileges or gain unauthorized access."),
  ("destructive_operation", "This query contains destructive operations. Review carefully."),
  ("scan_error", "The security scan could not be completed. Blocked as precaution."),
  ("size_limit_exceeded", "The content exceeds the maximum allowed size."),
  ("unknown", "A security concern was detected. Please review the content.")]

/-- THREAT_SEVERITY from sanitizer.py lines 146-165. -/
def THREAT_SEVERITY : List (String × String) := [
  ("prompt_injection", "high"),
  ("jailbreak", "high"),
  ("system_prompt_leak", "high"),
  ("data_exfiltration", "high"),
  ("sql_injection", "critical"),
  ("path_traversal", "high"),
  ("secrets_exposure", "critical"),
  ("pii_exposure", "high"),
  ("blocked_domain", "medium"),
  ("toxicity", "medium"),
  ("malicious_code", "critical"),
  ("harmful_intent", "high"),
  ("social_engineering", "medium"),
  ("privilege_escalation", "critical"),
  ("destructive_operation", "critical"),
  ("scan_error", "medium"),
  ("size_limit_exceeded", "low"),
  ("unknown", "medium")]

/-- INTERNAL_FIELDS, the denylist of internal detection-methodology field
names (sanitizer.py lines 168-180, `_INTERNAL_FIELDS`). -/
def INTERNAL_FIELDS : List String := [
  "detected_by", "policy_id", "policy_name", "matched_pattern",
  "matched_text", "pattern", "scan_stage", "ai_reasoning",
  "llm_analysis", "performance_metrics", "performance"]

/-- normalize_threat_type (sanitizer.py lines 183-188).  A falsy argument
(None or the empty string) yields "unknown"; a truthy string is lowered,
hyphens become underscores, and the result is looked up in
THREAT_TYPE_MAP with default "unknown"; a truthy non-string raises
(Python would fail calling `.lower()` on it). -/
def normalize_threat_type (raw_type : Val) : Except String String :=
  if truthy raw_type then
    match raw_type with
    | .str s => .ok ((lookupStr THREAT_TYPE_MAP (pyNormStr s)).getD "unknown")
    | _ => .error "AttributeError: no attribute lower"
  else
    .ok "unknown"

/-- derive_severity (sanitizer.py lines 191-200): a truthy string severity
in the valid set is used lower-cased, otherwise severity is derived from
THREAT_SEVERITY with default "medium". -/
def derive_severity (threat_type : String) (raw_severity : Val) : Except String String :=
  if truthy raw_severity then
    match raw_severity with
    | .str s =>
        let low := pyLower s
        if low = "critical" || low = "high" || low = "medium" || low = "low" then
          .ok low
        else
          .ok ((lookupStr THREAT_SEVERITY threat_type).getD "medium")
    | _ => .error "AttributeError: no attribute lower"
  else
    .ok ((lookupStr THREAT_SEVERITY threat_type).getD "medium")

/-- bucket_confidence (sanitizer.py lines 203-214).  None maps to
"medium"; a number compares against 0.9 and 0.7; a boolean compares as 0
or 1 (Python coerces bool in numeric comparison); any other value raises
TypeError, as the Python comparison with a float would. -/
def bucket_confidence (score : Val) : Except String String :=
  match score with
  | .null => .ok "medium"
  | .num q =>
      .ok (if mkRat 9 10 ≤ q then "high" else if mkRat 7 10 ≤ q then "medium" else "low")
  | .bool b => .ok (if b then "high" else "low")
  | _ => .error "TypeError: comparison of str and float"

/-- Python `THREAT_GUIDANCE.get(threat_type, THREAT_GUIDANCE["unknown"])`
(sanitizer.py line 242). -/
def guidanceFor (threat_type : String) : String :=
  (lookupStr THREAT_GUIDANCE threat_type).getD
    ((lookupStr THREAT_GUIDANCE "unknown").getD "")

/-- sanitize_scan_response (sanitizer.py lines 217-251).  A truthy (or
absent, defaulting to True) `safe` field yields exactly
`{safe: True, reason}`; otherwise the threat type is normalized, the
confidence bucketed, the severity derived, guidance attached, and only
the six canonical fields are emitted. -/
def sanitize_scan_response (raw : RawDict) : Except String RawDict :=
  let safe := getValD raw "safe" (.bool true)
  if truthy safe then
    .ok [("safe", .bool true), ("reason", getValD raw "reason" (.str ""))]
  else do
    let raw_threat_type := getValD raw "threat_type" (.str "unknown")
    let threat_type ← normalize_threat_type raw_threat_type
    let confidence ← bucket_confidence (pyGet raw "confidence")
    let severity ← derive_severity threat_type (pyGet raw "severity")
    let guidance := guidanceFor threat_type
    .ok [("safe", .bool false),
         ("threat_type", .str threat_type),
         ("severity", .str severity),
         ("confidence", .str confidence),
         ("reason", getValD raw "reason" (.str guidance)),
         ("guidance", .str guidance)]

/-! Scanner (scanner.py): client-side size guard and the synchronous scan
client round-trip structure. -/

/-- MAX_CONTENT_SIZE (scanner.py line 14): 100 KiB client-side ceiling. -/
def MAX_CONTENT_SIZE : Nat := 100 * 1024

/-- Python `len(context) if context else 0` (scanner.py line 22): a None or
empty context contributes zero. -/
def pyCtxLen : Option String → Nat
  | none => 0
  | some c => if c.isEmpty then 0 else c.length

/-- check_content_size (scanner.py lines 17-36, `_check_content_size`):
when the combined length exceeds MAX_CONTENT_SIZE, a raw blocked-result
dict (safe False, size_limit_exceeded, numeric confidence 1.0, violations
list) is returned without sanitization; otherwise None. -/
def check_content_size (content : String) (context : Option String) : Option RawDict :=
  let total_size := content.length + pyCtxLen context
  if total_size > MAX_CONTENT_SIZE then
    some [("safe", .bool false),
          ("reason", .str s!"Content too large ({total_size / 1024}KB > {MAX_CONTENT_SIZE / 1024}KB limit)"),
          ("threat_type", .str "size_limit_exceeded"),
          ("confidence", .num 1),
          ("violations", .list [Val.dict
            [("type", .str "size_limit"),
             ("description", .str s!"Content exceeds maximum size of {MAX_CONTENT_SIZE / 1024}KB")]])]
  else
    none

/-- Possible outcomes of the single HTTP round-trip to `POST /scan`,
abstracting the network: a 2xx response with a parsed JSON body, a
timeout (httpx.TimeoutException), a non-2xx status
(httpx.HTTPStatusError raised by raise_for_status), or any other
exception (connection error, malformed response body in
`response.json()`, ...). -/
inductive ScanOutcome : Type where
  | success (body : RawDict) : ScanOutcome
  | timeout : ScanOutcome
  | httpStatus (code : Nat) : ScanOutcome
  | failure (msg : String) : ScanOutcome

/-- Result of ScanClient.scan: how many network requests were issued and
either the returned dict or the raised exception. -/
structure ScanClientOut : Type where
  networkCalls : Nat
  result : Except String RawDict

/-- ScanClient.scan (scanner.py lines 80-109): size guard short-circuit
with zero network access, else one request whose failure propagates
(scanner.py catches nothing) and whose success body is sanitized. -/
def ScanClient_scan (prompt : String) (context : Option String)
    (outcome : ScanOutcome) : ScanClientOut :=
  match check_content_size prompt context with
  | some size_result => ⟨0, .ok size_result⟩
  | none =>
      ⟨1, match outcome with
          | .success body => sanitize_scan_response body
          | .timeout => .error "httpx.TimeoutException"
          | .httpStatus code => .error s!"httpx.HTTPStatusError: {code}"
          | .failure msg => .error msg⟩

/-! Provider adapters (anthropic_client.py, async_client.py).  The sync
and async variants of each function have textually identical decision
logic (the async ones only add await), so one embedding covers both. -/

/-- FailMode (config.py lines 7-20). -/
inductive FailMode : Type where
  | OPEN : FailMode
  | CLOSED : FailMode
deriving DecidableEq

/-- Content extraction step for one Anthropic content block
(anthropic_client.py lines 101-105): a dict tagged type "text"
contributes its "text" value (default the empty string), a plain string
contributes itself, anything else contributes nothing. -/
def anthropic_block_text (block : Val) : Option Val :=
  match block with
  | .dict kvs =>
      match getVal kvs "type" with
      | some (.str t) => if t = "text" then some (getValD kvs "text" (.str "")) else none
      | _ => none
  | .str s => some (.str s)
  | _ => none

/-- Content extraction step for one OpenAI content part (async_client.py
lines 95-97): only dicts tagged type "text" contribute; plain string
parts are ignored. -/
def openai_part_text (part : Val) : Option Val :=
  match part with
  | .dict kvs =>
      match getVal kvs "type" with
      | some (.str t) => if t = "text" then some (getValD kvs "text" (.str "")) else none
      | _ => none
  | _ => none

/-- Texts collected from one message by either extractor: non-user roles
contribute nothing, string content contributes itself, list content
contributes per-block texts, other content contributes nothing. -/
def message_texts (blockText : Val → Option Val) (msg : RawDict) : List Val :=
  match getVal msg "role" with
  | some (.str r) =>
      if r = "user" then
        match getVal msg "content" with
        | some (.str s) => [Val.str s]
        | some (.list blocks) => blocks.filterMap blockText
        | _ => []
      else []
  | _ => []

/-- Python `"\n".join(texts)`: succeeds only when every collected item is
a string, as str.join raises TypeError otherwise. -/
def py_join_newline (vs : List Val) : Except String String :=
  match vs.mapM (fun v => match v with | .str s => some s | _ => none) with
  | some ss => .ok (String.intercalate "\n" ss)
  | none => .error "TypeError: sequence item is not a str instance"

/-- ShrikeAnthropic._extract_user_content (anthropic_client.py lines
85-107; identical async copy at lines 298-316). -/
def anthropic_extract_user_content (messages : List RawDict) : Except String String :=
  py_join_newline ((messages.map (message_texts anthropic_block_text)).flatten)

/-- ShrikeAsyncOpenAI._extract_user_content (async_client.py lines
78-98). -/
def openai_extract_user_content (messages : List RawDict) : Except String String :=
  py_join_newline ((messages.map (message_texts openai_part_text)).flatten)

/-- Python whitespace test for one character (ASCII range of
str.isspace). -/
def pyIsSpace (c : Char) : Bool :=
  c = ' ' || c = '\t' || c = '\n' || c = '\r' || c = Char.ofNat 11 || c = Char.ofNat 12

/-- Python `not s.strip()`: true exactly when every character of `s` is
whitespace (in particular for the empty string). -/
def py_strip_is_empty (s : String) : Bool :=
  s.data.all pyIsSpace

/-- Result of a `_remote_scan` call: the returned dict or the raised
ShrikeScanError message, together with the warning-level log emissions
made during the call. -/
structure RemoteOut : Type where
  result : Except String RawDict
  warnings : List String

/-- ShrikeAnthropic._remote_scan (anthropic_client.py lines 124-150;
identical copies at anthropic_client.py lines 333-359 and
async_client.py lines 121-153).  On success the body is sanitized inside
the try block, so a sanitizer exception falls into the generic handler;
on timeout, fail-open returns a safe verdict and logs one warning while
fail-closed raises ShrikeScanError; on an HTTP status error or any other
exception, fail-open returns a safe verdict without logging and
fail-closed raises ShrikeScanError. -/
def remote_scan (fm : FailMode) (outcome : ScanOutcome) : RemoteOut :=
  match outcome with
  | .success body =>
      match sanitize_scan_response body with
      | .ok d => ⟨.ok d, []⟩
      | .error e =>
          match fm with
          | .OPEN => ⟨.ok [("safe", .bool true), ("reason", .str s!"Scan error: {e}")], []⟩
          | .CLOSED => ⟨.error s!"Scan failed: {e}", []⟩
  | .timeout =>
      match fm with
      | .OPEN => ⟨.ok [("safe", .bool true), ("reason", .str "Scan timeout, failing open")],
                  ["Scan request timed out, failing open (allowing request)"]⟩
      | .CLOSED => ⟨.error "Scan request timed out and fail_mode is \x27closed\x27", []⟩
  | .httpStatus code =>
      match fm with
      | .OPEN => ⟨.ok [("safe", .bool true), ("reason", .str s!"Scan API error: {code}")], []⟩
      | .CLOSED => ⟨.error s!"Scan API returned error: {code}", []⟩
  | .failure msg =>
      match fm with
      | .OPEN => ⟨.ok [("safe", .bool true), ("reason", .str s!"Scan error: {msg}")], []⟩
      | .CLOSED => ⟨.error s!"Scan failed: {msg}", []⟩

/-- Exceptions escaping `_scan_messages`: a ShrikeScanError from the
remote scan, or an ordinary Python exception (only possible from content
extraction on malformed input). -/
inductive ScanExc : Type where
  | scanError (msg : String) : ScanExc
  | pyError (msg : String) : ScanExc

/-- Result of `_scan_messages`: the verdict dict or the escaping
exception, the number of scan network requests issued, and the warnings
logged. -/
structure ScanMessagesOut : Type where
  result : Except ScanExc RawDict
  networkCalls : Nat
  warnings : List String

/-- Shared body of ShrikeAnthropic._scan_messages (anthropic_client.py
lines 109-122, async copy lines 318-331) and
ShrikeAsyncOpenAI._scan_messages (async_client.py lines 100-119),
parameterized by the content extractor: blank extracted text yields a
safe verdict with zero network access, otherwise the remote scan runs
once. -/
def scan_messages (extract : List RawDict → Except String String)
    (fm : FailMode) (messages : List RawDict) (outcome : ScanOutcome) : ScanMessagesOut :=
  match extract messages with
  | .error e => ⟨.error (.pyError e), 0, []⟩
  | .ok user_content =>
      if py_strip_is_empty user_content then
        ⟨.ok [("safe", .bool true), ("reason", .str "No user content to scan")], 0, []⟩
      else
        let r := remote_scan fm outcome
        ⟨r.result.mapError ScanExc.scanError, 1, r.warnings⟩

/-- ShrikeBlockedError (exceptions.py lines 30-58) as raised by the
adapters, carrying the message, threat type, confidence and violations
taken from the scan result. -/
structure ShrikeBlockedError : Type where
  message : Val
  threat_type : Val
  confidence : Val
  violations : Val

/-- Terminal outcome of one adapter entry point. -/
inductive AdapterExc : Type where
  | blocked (e : ShrikeBlockedError) : AdapterExc
  | scanError (msg : String) : AdapterExc
  | pyError (msg : String) : AdapterExc

/-- Result of one adapter entry point: the delegated provider call
(`.ok ()` stands for the provider response returned verbatim) or the
raised exception, whether the wrapped provider client was invoked, the
number of scan network requests, and the warnings logged. -/
structure CreateOut : Type where
  result : Except AdapterExc Unit
  providerInvoked : Bool
  networkCalls : Nat
  warnings : List String

/-- Python `str(v)` for the values that can appear as a scan-result
reason; only the string case is exercised by the source paths under
verification. -/
def pyStrVal : Val → String
  | .str s => s
  | .null => "None"
  | .bool b => if b then "True" else "False"
  | .num q => toString q
  | .list _ => "[...]"
  | .dict _ => "\x7b...\x7d"

/-- _MessagesNamespace.create (anthropic_client.py lines 169-211): scan,
raise ShrikeBlockedError when the verdict is unsafe (reason defaulting
to "Request blocked by Shrike", threat_type and confidence via
`.get`, violations defaulting to the empty list), else delegate to the
wrapped Anthropic client. -/
def anthropic_messages_create (fm : FailMode) (messages : List RawDict)
    (outcome : ScanOutcome) : CreateOut :=
  let s := scan_messages anthropic_extract_user_content fm messages outcome
  match s.result with
  | .error (.scanError e) => ⟨.error (.scanError e), false, s.networkCalls, s.warnings⟩
  | .error (.pyError e) => ⟨.error (.pyError e), false, s.networkCalls, s.warnings⟩
  | .ok scan_result =>
      if truthy (getValD scan_result "safe" (.bool true)) then
        ⟨.ok (), true, s.networkCalls, s.warnings⟩
      else
        ⟨.error (.blocked
            ⟨getValD scan_result "reason" (.str "Request blocked by Shrike"),
             pyGet scan_result "threat_type",
             pyGet scan_result "confidence",
             .list []⟩),
         false, s.networkCalls, s.warnings⟩

/-- _MessagesNamespace.stream (anthropic_client.py lines 213-243): the
scan-and-block logic is identical to create; only the delegated provider
call differs (messages.stream instead of messages.create).  The async
namespace (lines 378-449) repeats both verbatim. -/
def anthropic_messages_stream (fm : FailMode) (messages : List RawDict)
    (outcome : ScanOutcome) : CreateOut :=
  let s := scan_messages anthropic_extract_user_content fm messages outcome
  match s.result with
  | .error (.scanError e) => ⟨.error (.scanError e), false, s.networkCalls, s.warnings⟩
  | .error (.pyError e) => ⟨.error (.pyError e), false, s.networkCalls, s.warnings⟩
  | .ok scan_result =>
      if truthy (getValD scan_result "safe" (.bool true)) then
        ⟨.ok (), true, s.networkCalls, s.warnings⟩
      else
        ⟨.error (.blocked
            ⟨getValD scan_result "reason" (.str "Request blocked by Shrike"),
             pyGet scan_result "threat_type",
             pyGet scan_result "confidence",
             .list []⟩),
         false, s.networkCalls, s.warnings⟩

/-- _AsyncCompletionsNamespace.create (async_client.py lines 275-316):
scan, raise ShrikeBlockedError when the verdict is unsafe (message
prefixed "Request blocked: ", violations via
`scan_result.get("violations", [])`), else delegate to the wrapped
OpenAI client. -/
def openai_completions_create (fm : FailMode) (messages : List RawDict)
    (outcome : ScanOutcome) : CreateOut :=
  let s := scan_messages openai_extract_user_content fm messages outcome
  match s.result with
  | .error (.scanError e) => ⟨.error (.scanError e), false, s.networkCalls, s.warnings⟩
  | .error (.pyError e) => ⟨.error (.pyError e), false, s.networkCalls, s.warnings⟩
  | .ok scan_result =>
      if truthy (getValD scan_result "safe" (.bool true)) then
        ⟨.ok (), true, s.networkCalls, s.warnings⟩
      else
        ⟨.error (.blocked
            ⟨.str ("Request blocked: " ++
               pyStrVal (getValD scan_result "reason" (.str "Security threat detected"))),
             pyGet scan_result "threat_type",
             pyGet scan_result "confidence",
             getValD scan_result "violations" (.list [])⟩),
         false, s.networkCalls, s.warnings⟩

/-! Theorems settling the claims. -/

/-- Decidable equality on Except values with decidable components, used
to evaluate concrete runs of the embedded functions. -/
instance instDecEqExcept {ε α : Type} [DecidableEq ε] [DecidableEq α] :
    DecidableEq (Except ε α)
  | .error x, .error y =>
      if h : x = y then isTrue (h ▸ rfl)
      else isFalse (fun he => h (Except.error.inj he))
  | .error _, .ok _ => isFalse Except.noConfusion
  | .ok _, .error _ => isFalse Except.noConfusion
  | .ok x, .ok y =>
      if h : x = y then isTrue (h ▸ rfl)
      else isFalse (fun he => h (Except.ok.inj he))

set_option maxRecDepth 4096

/-- Threshold 0.9 of bucket_confidence, in division form. -/
lemma mkRat_nine_tenths : (mkRat 9 10 : ℚ) = (9 : ℚ)/10 := by
  rw [Rat.mkRat_eq_div]; norm_num

/-- Threshold 0.7 of bucket_confidence, in division form. -/
lemma mkRat_seven_tenths : (mkRat 7 10 : ℚ) = (7 : ℚ)/10 := by
  rw [Rat.mkRat_eq_div]; norm_num

/-- Scores of at least 0.9 bucket to "high". -/
lemma bucket_confidence_high {q : ℚ} (h : (9 : ℚ)/10 ≤ q) :
    bucket_confidence (.num q) = .ok "high" := by
  simp only [bucket_confidence, mkRat_nine_tenths, if_pos h]

/-- Scores in [0.7, 0.9) bucket to "medium". -/
lemma bucket_confidence_medium {q : ℚ} (h1 : (7 : ℚ)/10 ≤ q) (h2 : q < (9 : ℚ)/10) :
    bucket_confidence (.num q) = .ok "medium" := by
  simp only [bucket_confidence, mkRat_nine_tenths, mkRat_seven_tenths,
    if_neg (not_le.mpr h2), if_pos h1]

/-- Scores below 0.7 bucket to "low". -/
lemma bucket_confidence_low {q : ℚ} (h : q < (7 : ℚ)/10) :
    bucket_confidence (.num q) = .ok "low" := by
  have h9 : ¬ (9 : ℚ)/10 ≤ q := not_le.mpr (h.trans_le (by norm_num))
  simp only [bucket_confidence, mkRat_nine_tenths, mkRat_seven_tenths,
    if_neg h9, if_neg (not_le.mpr h)]

/-- C4: bucket_confidence maps every score at least 0.9 to "high", every
score in [0.7, 0.9) to "medium", every other present score to "low", and
a missing score (None) to "medium"; in particular 0.95 buckets to
"high", 0.75 to "medium", 0.5 to "low" and None to "medium". -/
theorem C4_bucket_confidence :
    (∀ q : ℚ, ((9 : ℚ)/10 ≤ q → bucket_confidence (.num q) = .ok "high")
      ∧ ((7 : ℚ)/10 ≤ q → q < (9 : ℚ)/10 → bucket_confidence (.num q) = .ok "medium")
      ∧ (q < (7 : ℚ)/10 → bucket_confidence (.num q) = .ok "low"))
    ∧ bucket_confidence .null = .ok "medium"
    ∧ bucket_confidence (.num (95/100)) = .ok "high"
    ∧ bucket_confidence (.num (75/100)) = .ok "medium"
    ∧ bucket_confidence (.num (1/2)) = .ok "low" :=
  ⟨fun q => ⟨bucket_confidence_high, bucket_confidence_medium, bucket_confidence_low⟩,
   rfl,
   bucket_confidence_high (by norm_num),
   bucket_confidence_medium (by norm_num) (by norm_num),
   bucket_confidence_low (by norm_num)⟩

/-- Witness for C4 at the concrete score 0.92. -/
theorem C4_bucket_confidence_witness :
    bucket_confidence (.num (92/100)) = .ok "high" :=
  (C4_bucket_confidence.1 (92/100)).1 (by norm_num)

/-- On a string argument, normalize_threat_type never raises: it returns
the table lookup of the lowered, hyphen-replaced string, defaulting to
"unknown" (the empty string is falsy and short-circuits to "unknown",
which coincides with the failed lookup of ""). -/
lemma normalize_threat_type_str (s : String) :
    normalize_threat_type (.str s) =
      .ok ((lookupStr THREAT_TYPE_MAP (pyNormStr s)).getD "unknown") := by
  by_cases h : s.isEmpty
  · have hs : s = "" := String.isEmpty_iff s |>.mp h
    subst hs
    decide
  · simp only [normalize_threat_type, truthy, h, Bool.not_false, if_pos]

/-- C5: normalize_threat_type lower-cases its input, replaces hyphens
with underscores, and looks the result up in THREAT_TYPE_MAP: every key
of the table returns its documented canonical category (in particular
"sqli" maps to "sql_injection" and "jailbreak_attempt" to "jailbreak"),
and every unmapped or absent input ("banana", None, "") returns
"unknown". -/
theorem C5_normalize_threat_type :
    (∀ kv ∈ THREAT_TYPE_MAP, normalize_threat_type (.str kv.1) = .ok kv.2)
    ∧ (∀ s : String, normalize_threat_type (.str s) =
        .ok ((lookupStr THREAT_TYPE_MAP (pyNormStr s)).getD "unknown"))
    ∧ normalize_threat_type (.str "sqli") = .ok "sql_injection"
    ∧ normalize_threat_type (.str "jailbreak_attempt") = .ok "jailbreak"
    ∧ normalize_threat_type (.str "Jailbreak-Attempt") = .ok "jailbreak"
    ∧ normalize_threat_type (.str "banana") = .ok "unknown"
    ∧ normalize_threat_type .null = .ok "unknown"
    ∧ normalize_threat_type (.str "") = .ok "unknown" :=
  ⟨by decide, normalize_threat_type_str, by decide, by decide, by decide, by decide, rfl, rfl⟩

/-- Witness for C5 at the table entry ("roleplay", "jailbreak"). -/
theorem C5_normalize_threat_type_witness :
    normalize_threat_type (.str "roleplay") = .ok "jailbreak" :=
  C5_normalize_threat_type.1 ("roleplay", "jailbreak") (by decide)

/-- Prompt of 102401 characters, one more than MAX_CONTENT_SIZE. -/
def oversizedPrompt : String := String.mk (List.replicate 102401 'a')

/-- Length of the oversized prompt. -/
lemma oversizedPrompt_length : oversizedPrompt.length = 102401 := by
  show (List.replicate 102401 'a').length = 102401
  exact List.length_replicate 102401 'a'

/-- Unfolding of the size guard in the oversized case. -/
lemma check_content_size_oversize (content : String) (context : Option String)
    (h : MAX_CONTENT_SIZE < content.length + pyCtxLen context) :
    check_content_size content context =
      some [("safe", .bool false),
            ("reason", .str s!"Content too large ({(content.length + pyCtxLen context) / 1024}KB > {MAX_CONTENT_SIZE / 1024}KB limit)"),
            ("threat_type", .str "size_limit_exceeded"),
            ("confidence", .num 1),
            ("violations", .list [Val.dict
              [("type", .str "size_limit"),
               ("description", .str s!"Content exceeds maximum size of {MAX_CONTENT_SIZE / 1024}KB")]])] := by
  simp only [check_content_size]
  rw [if_pos h]

/-- Unfolding of the size guard in the within-limit case. -/
lemma check_content_size_within (content : String) (context : Option String)
    (h : content.length + pyCtxLen context ≤ MAX_CONTENT_SIZE) :
    check_content_size content context = none := by
  simp only [check_content_size]
  rw [if_neg (not_lt.mpr h)]

/-- C3 counterexample: on a 102401-character prompt the size guard does
return a blocked result, but that result carries no "severity" key at
all and its "confidence" is the raw number 1.0 rather than the bucket
"high", contradicting the claimed severity == "low" and
confidence == "high". -/
theorem C3_counterexample :
    (check_content_size oversizedPrompt none).isSome = true
    ∧ getVal ((check_content_size oversizedPrompt none).getD []) "severity" = none
    ∧ getVal ((check_content_size oversizedPrompt none).getD []) "confidence"
        = some (.num 1) := by
  have h : MAX_CONTENT_SIZE < oversizedPrompt.length + pyCtxLen none := by
    rw [oversizedPrompt_length]
    norm_num [pyCtxLen, MAX_CONTENT_SIZE]
  rw [check_content_size_oversize oversizedPrompt none h]
  refine ⟨rfl, ?_, ?_⟩ <;> simp [getVal]

/-- C3 (amended): if len(text) plus len(context) exceeds
MAX_CONTENT_SIZE (100*1024) then the size guard returns, with zero
network access, an unsafe raw result with
threat_type == "size_limit_exceeded", the raw numeric confidence 1.0 and
a violations list — but no severity field and no bucketed confidence,
since ScanClient.scan returns it without sanitization; otherwise the
guard returns nothing and the scan proceeds with one network request. -/
theorem C3_size_guard (prompt : String) (context : Option String) (outcome : ScanOutcome) :
    (MAX_CONTENT_SIZE < prompt.length + pyCtxLen context →
      (ScanClient_scan prompt context outcome).networkCalls = 0
      ∧ ∃ d, (ScanClient_scan prompt context outcome).result = .ok d
          ∧ getVal d "safe" = some (.bool false)
          ∧ getVal d "threat_type" = some (.str "size_limit_exceeded")
          ∧ getVal d "confidence" = some (.num 1)
          ∧ getVal d "severity" = none
          ∧ getVal d "violations" ≠ none)
    ∧ (prompt.length + pyCtxLen context ≤ MAX_CONTENT_SIZE →
      check_content_size prompt context = none
      ∧ (ScanClient_scan prompt context outcome).networkCalls = 1) := by
  constructor
  · intro h
    rw [show ScanClient_scan prompt context outcome
          = ⟨0, .ok ((check_content_size prompt context).getD [])⟩ from ?_]
    · refine ⟨rfl, (check_content_size prompt context).getD [], rfl, ?_⟩
      rw [check_content_size_oversize prompt context h]
      refine ⟨?_, ?_, ?_, ?_, ?_⟩ <;> simp [getVal]
    · rw [ScanClient_scan.eq_def, check_content_size_oversize prompt context h]
      rfl
  · intro h
    refine ⟨check_content_size_within prompt context h, ?_⟩
    rw [ScanClient_scan.eq_def, check_content_size_within prompt context h]

/-- Witness for C3 at the oversized prompt and a within-limit prompt. -/
theorem C3_size_guard_witness :
    (ScanClient_scan oversizedPrompt none .timeout).networkCalls = 0
    ∧ (ScanClient_scan "hello" none .timeout).networkCalls = 1 := by
  have h : MAX_CONTENT_SIZE < oversizedPrompt.length + pyCtxLen none := by
    rw [oversizedPrompt_length]
    norm_num [pyCtxLen, MAX_CONTENT_SIZE]
  refine ⟨((C3_size_guard oversizedPrompt none .timeout).1 h).1,
    ((C3_size_guard "hello" none .timeout).2 (by decide)).2⟩

/-- C6 counterexample: with an empty messages list the scan does return a
safe verdict with zero network access, but its reason is
"No user content to scan", not the claimed "no content to scan". -/
theorem C6_counterexample :
    (scan_messages anthropic_extract_user_content .OPEN [] .timeout).result
      = .ok [("safe", .bool true), ("reason", .str "No user content to scan")]
    ∧ ¬ ((scan_messages anthropic_extract_user_content .OPEN [] .timeout).result
      = .ok [("safe", .bool true), ("reason", .str "no content to scan")]) := by
  refine ⟨rfl, fun h => ?_⟩
  have hv : Val.str "No user content to scan" = Val.str "no content to scan" :=
    congrArg (fun r => match r with
      | Except.ok d => getValD d "reason" .null
      | Except.error _ => Val.null) h
  exact absurd (Val.str.inj hv) (by decide)

/-- C6 (amended): whenever the text extracted from the messages is empty,
the scan performs no network request and returns a safe verdict whose
reason is "No user content to scan" (the code's literal string; the
claimed "no content to scan" differs). -/
theorem C6_empty_content (extract : List RawDict → Except String String)
    (fm : FailMode) (messages : List RawDict) (outcome : ScanOutcome)
    (h : extract messages = .ok "") :
    (scan_messages extract fm messages outcome).networkCalls = 0
    ∧ (scan_messages extract fm messages outcome).result
        = .ok [("safe", .bool true), ("reason", .str "No user content to scan")] := by
  rw [scan_messages, h]
  exact ⟨rfl, rfl⟩

/-- Witness for C6: the empty messages list under each extractor. -/
theorem C6_empty_content_witness :
    (scan_messages anthropic_extract_user_content .CLOSED [] .timeout).networkCalls = 0
    ∧ (scan_messages openai_extract_user_content .CLOSED [] .timeout).networkCalls = 0 :=
  ⟨(C6_empty_content anthropic_extract_user_content .CLOSED [] .timeout rfl).1,
   (C6_empty_content openai_extract_user_content .CLOSED [] .timeout rfl).1⟩

/-- Unfolding of the sanitizer when the safe field is truthy. -/
lemma sanitize_safe_eq (raw : RawDict) (h : truthy (getValD raw "safe" (.bool true)) = true) :
    sanitize_scan_response raw =
      .ok [("safe", .bool true), ("reason", getValD raw "reason" (.str ""))] := by
  simp [sanitize_scan_response, h]

/-- Unfolding of the sanitizer when the safe field is falsy, as the
chain of fallible steps of the unsafe branch. -/
lemma sanitize_unsafe_eq (raw : RawDict) (h : truthy (getValD raw "safe" (.bool true)) = false) :
    sanitize_scan_response raw =
      (normalize_threat_type (getValD raw "threat_type" (.str "unknown"))).bind (fun t =>
        (bucket_confidence (pyGet raw "confidence")).bind (fun c =>
          (derive_severity t (pyGet raw "severity")).bind (fun sv =>
            .ok [("safe", .bool false), ("threat_type", .str t), ("severity", .str sv),
                 ("confidence", .str c),
                 ("reason", getValD raw "reason" (.str (guidanceFor t))),
                 ("guidance", .str (guidanceFor t))]))) := by
  simp only [sanitize_scan_response, h, Bool.false_eq_true, if_false]
  rfl

/-- Inversion for a successful sanitization: the output is either the
two-field safe shape or the six-field unsafe shape with the normalized
threat type, bucketed confidence and derived severity. -/
lemma sanitize_ok_elim {raw d : RawDict} (h : sanitize_scan_response raw = .ok d) :
    (truthy (getValD raw "safe" (.bool true)) = true
      ∧ d = [("safe", .bool true), ("reason", getValD raw "reason" (.str ""))])
    ∨ (truthy (getValD raw "safe" (.bool true)) = false
      ∧ ∃ t c sv,
          normalize_threat_type (getValD raw "threat_type" (.str "unknown")) = .ok t
          ∧ bucket_confidence (pyGet raw "confidence") = .ok c
          ∧ derive_severity t (pyGet raw "severity") = .ok sv
          ∧ d = [("safe", .bool false), ("threat_type", .str t), ("severity", .str sv),
                 ("confidence", .str c),
                 ("reason", getValD raw "reason" (.str (guidanceFor t))),
                 ("guidance", .str (guidanceFor t))]) := by
  by_cases hs : truthy (getValD raw "safe" (.bool true)) = true
  · left
    rw [sanitize_safe_eq raw hs] at h
    exact ⟨hs, (Except.ok.inj h).symm⟩
  · right
    rw [Bool.not_eq_true] at hs
    rw [sanitize_unsafe_eq raw hs] at h
    cases ht : normalize_threat_type (getValD raw "threat_type" (.str "unknown")) with
    | error e => rw [ht] at h; exact absurd h (by simp [Except.bind])
    | ok t =>
      rw [ht] at h
      simp only [Except.bind] at h
      cases hc : bucket_confidence (pyGet raw "confidence") with
      | error e => rw [hc] at h; exact absurd h (by simp [Except.bind])
      | ok c =>
        rw [hc] at h
        simp only [Except.bind] at h
        cases hv : derive_severity t (pyGet raw "severity") with
        | error e => rw [hv] at h; exact absurd h (by simp [Except.bind])
        | ok sv =>
          rw [hv] at h
          simp only [Except.bind] at h
          exact ⟨hs, t, c, sv, rfl, rfl, hv, (Except.ok.inj h).symm⟩

/-- The unsafe verdict produced by sanitizing a raw response whose only
content is safe equal to False: threat type "unknown", severity and
confidence "medium", reason and guidance the generic fallback text. -/
def unknown_unsafe_verdict : RawDict :=
  [("safe", .bool false), ("threat_type", .str "unknown"), ("severity", .str "medium"),
   ("confidence", .str "medium"),
   ("reason", .str "A security concern was detected. Please review the content."),
   ("guidance", .str "A security concern was detected. Please review the content.")]

/-- C7 counterexample: sanitization is not idempotent on every raw
response.  For the unsafe raw response with only safe equal to False,
the first sanitization succeeds, but sanitizing its output raises
TypeError, because the output carries the bucket string "medium" as its
confidence and bucket_confidence compares it with a float. -/
theorem C7_counterexample :
    (sanitize_scan_response [("safe", Val.bool false)]).bind sanitize_scan_response
      ≠ sanitize_scan_response [("safe", Val.bool false)] :=
  fun h => Except.noConfusion h

/-- C7 (amended): for every raw verdict whose safe field is truthy,
sanitize_scan_response returns a dict with exactly the keys safe and
reason and safe equal to True; sanitization is idempotent on every raw
response whose sanitized verdict is safe; but re-sanitizing an unsafe
sanitized verdict raises TypeError (its confidence is a bucket string,
which bucket_confidence compares against a float), so idempotence fails
for raws whose sanitized verdict is unsafe. -/
theorem C7_sanitize_shape_idempotence :
    (∀ raw : RawDict, truthy (getValD raw "safe" (.bool true)) = true →
      sanitize_scan_response raw =
        .ok [("safe", .bool true), ("reason", getValD raw "reason" (.str ""))])
    ∧ (∀ raw d : RawDict, sanitize_scan_response raw = .ok d →
        truthy (getValD d "safe" (.bool true)) = true →
        sanitize_scan_response d = .ok d)
    ∧ (∀ raw d : RawDict, sanitize_scan_response raw = .ok d →
        truthy (getValD d "safe" (.bool true)) = false →
        sanitize_scan_response d = .error "TypeError: comparison of str and float") := by
  refine ⟨sanitize_safe_eq, fun raw d h h2 => ?_, fun raw d h h2 => ?_⟩
  · rcases sanitize_ok_elim h with ⟨hs, rfl⟩ | ⟨hs, t, c, sv, ht, hc, hv, rfl⟩
    · rw [sanitize_safe_eq _ h2]
      rfl
    · exact Bool.noConfusion h2
  · rcases sanitize_ok_elim h with ⟨hs, rfl⟩ | ⟨hs, t, c, sv, ht, hc, hv, rfl⟩
    · exact Bool.noConfusion h2
    · rw [sanitize_unsafe_eq _ h2,
        show getValD [("safe", Val.bool false), ("threat_type", Val.str t),
            ("severity", Val.str sv), ("confidence", Val.str c),
            ("reason", getValD raw "reason" (Val.str (guidanceFor t))),
            ("guidance", Val.str (guidanceFor t))] "threat_type" (.str "unknown")
          = .str t from rfl,
        normalize_threat_type_str t]
      rfl

/-- Witness for C7: the safe raw response sanitizes to the exact safe
shape and is a sanitization fixpoint; the unsafe sanitized verdict of
the minimal unsafe raw response raises TypeError when re-sanitized. -/
theorem C7_sanitize_shape_idempotence_witness :
    sanitize_scan_response [("safe", Val.bool true), ("reason", Val.str "ok")]
      = .ok [("safe", Val.bool true), ("reason", Val.str "ok")]
    ∧ sanitize_scan_response unknown_unsafe_verdict
      = .error "TypeError: comparison of str and float" :=
  ⟨C7_sanitize_shape_idempotence.2.1
      [("safe", Val.bool true), ("reason", Val.str "ok")]
      [("safe", Val.bool true), ("reason", Val.str "ok")] rfl rfl,
   C7_sanitize_shape_idempotence.2.2 [("safe", Val.bool false)] unknown_unsafe_verdict rfl rfl⟩

/-- Keys appearing in a dict. -/
lemma getVal_some_key_mem (d : RawDict) (k : String) (v : Val) (h : getVal d k = some v) :
    k ∈ d.map Prod.fst := by
  induction d with
  | nil => simp [getVal] at h
  | cons kv rest ih =>
      obtain ⟨kk, vv⟩ := kv
      simp only [getVal] at h
      by_cases he : k = kk
      · subst he; simp
      · rw [if_neg he] at h
        simp [ih h]

/-- C8: the output of sanitize_scan_response never contains a key
outside the six canonical fields safe, threat_type, severity,
confidence, reason and guidance; and any two raw responses that agree
on every key outside the denylist of internal fields sanitize
identically, so no denylisted internal field survives into or
influences the output. -/
theorem C8_sanitize_ip_protection :
    (∀ raw d : RawDict, sanitize_scan_response raw = .ok d →
      ∀ k v, getVal d k = some v →
        k ∈ ["safe", "threat_type", "severity", "confidence", "reason", "guidance"])
    ∧ (∀ r1 r2 : RawDict,
        (∀ k, k ∉ INTERNAL_FIELDS → getVal r1 k = getVal r2 k) →
        sanitize_scan_response r1 = sanitize_scan_response r2) := by
  constructor
  · intro raw d h k v hk
    rcases sanitize_ok_elim h with ⟨hs, rfl⟩ | ⟨hs, t, c, sv, ht, hc, hv, rfl⟩
    · have hm := getVal_some_key_mem _ k v hk
      simp at hm
      rcases hm with rfl | rfl <;> decide
    · have hm := getVal_some_key_mem _ k v hk
      simp at hm
      rcases hm with rfl | rfl | rfl | rfl | rfl | rfl <;> decide
  · intro r1 r2 h
    have h1 := h "safe" (by decide)
    have h2 := h "reason" (by decide)
    have h3 := h "threat_type" (by decide)
    have h4 := h "confidence" (by decide)
    have h5 := h "severity" (by decide)
    simp only [sanitize_scan_response, pyGet, getValD, h1, h2, h3, h4, h5]

/-- Witness for C8: a denylisted detected_by field does not change the
sanitized output, and the key "safe" of a concrete sanitized output is
among the canonical fields. -/
theorem C8_sanitize_ip_protection_witness :
    sanitize_scan_response [("safe", Val.bool true), ("detected_by", Val.str "regex-17")]
      = sanitize_scan_response [("safe", Val.bool true)]
    ∧ "safe" ∈ ["safe", "threat_type", "severity", "confidence", "reason", "guidance"] := by
  constructor
  · refine C8_sanitize_ip_protection.2 _ _ ?_
    intro k hk
    by_cases h1 : k = "safe"
    · subst h1; rfl
    · have h2 : k ≠ "detected_by" := fun he => hk (by rw [he]; decide)
      simp [getVal, h1, h2]
  · exact C8_sanitize_ip_protection.1 [("safe", Val.bool false)] unknown_unsafe_verdict rfl
      "safe" (.bool false) rfl

/-- Unfolding of scan_messages on a successful extraction with nonblank
content and a successfully sanitized response body. -/
lemma scan_messages_success_eq (extract : List RawDict → Except String String)
    (fm : FailMode) (messages : List RawDict) (body d : RawDict) (uc : String)
    (he : extract messages = .ok uc) (hb : py_strip_is_empty uc = false)
    (hs : sanitize_scan_response body = .ok d) :
    scan_messages extract fm messages (.success body) = ⟨.ok d, 1, []⟩ := by
  simp [scan_messages, he, hb, remote_scan, hs, Except.mapError]

/-- When scan_messages reports one network call, its outcome is exactly
the remote scan's. -/
lemma scan_messages_networkCalls_one (extract : List RawDict → Except String String)
    (fm : FailMode) (messages : List RawDict) (outcome : ScanOutcome)
    (h : (scan_messages extract fm messages outcome).networkCalls = 1) :
    scan_messages extract fm messages outcome =
      ⟨(remote_scan fm outcome).result.mapError ScanExc.scanError, 1,
       (remote_scan fm outcome).warnings⟩ := by
  cases he : extract messages with
  | error e => simp [scan_messages, he] at h
  | ok uc =>
      by_cases hb : py_strip_is_empty uc
      · simp [scan_messages, he, hb] at h
      · simp [scan_messages, he, hb]

/-- The Anthropic create on a safe scan verdict delegates to the
provider. -/
lemma anthropic_create_allowed {fm : FailMode} {messages : List RawDict}
    {outcome : ScanOutcome} {d : RawDict}
    (h : scan_messages anthropic_extract_user_content fm messages outcome = ⟨.ok d, 1, []⟩)
    (hsafe : truthy (getValD d "safe" (.bool true)) = true) :
    anthropic_messages_create fm messages outcome = ⟨.ok (), true, 1, []⟩ := by
  simp [anthropic_messages_create, h, hsafe]

/-- The Anthropic create on an unsafe scan verdict raises
ShrikeBlockedError and never invokes the provider. -/
lemma anthropic_create_blocked {fm : FailMode} {messages : List RawDict}
    {outcome : ScanOutcome} {d : RawDict}
    (h : scan_messages anthropic_extract_user_content fm messages outcome = ⟨.ok d, 1, []⟩)
    (hblock : truthy (getValD d "safe" (.bool true)) = false) :
    anthropic_messages_create fm messages outcome =
      ⟨.error (.blocked ⟨getValD d "reason" (.str "Request blocked by Shrike"),
          pyGet d "threat_type", pyGet d "confidence", .list []⟩), false, 1, []⟩ := by
  simp [anthropic_messages_create, h, hblock]

/-- The Anthropic stream entry point behaves like create. -/
lemma anthropic_stream_blocked {fm : FailMode} {messages : List RawDict}
    {outcome : ScanOutcome} {d : RawDict}
    (h : scan_messages anthropic_extract_user_content fm messages outcome = ⟨.ok d, 1, []⟩)
    (hblock : truthy (getValD d "safe" (.bool true)) = false) :
    anthropic_messages_stream fm messages outcome =
      ⟨.error (.blocked ⟨getValD d "reason" (.str "Request blocked by Shrike"),
          pyGet d "threat_type", pyGet d "confidence", .list []⟩), false, 1, []⟩ := by
  simp [anthropic_messages_stream, h, hblock]

/-- The OpenAI completions create on a safe scan verdict delegates to
the provider. -/
lemma openai_create_allowed {fm : FailMode} {messages : List RawDict}
    {outcome : ScanOutcome} {d : RawDict}
    (h : scan_messages openai_extract_user_content fm messages outcome = ⟨.ok d, 1, []⟩)
    (hsafe : truthy (getValD d "safe" (.bool true)) = true) :
    openai_completions_create fm messages outcome = ⟨.ok (), true, 1, []⟩ := by
  simp [openai_completions_create, h, hsafe]

/-- The OpenAI completions create on an unsafe scan verdict raises
ShrikeBlockedError and never invokes the provider. -/
lemma openai_create_blocked {fm : FailMode} {messages : List RawDict}
    {outcome : ScanOutcome} {d : RawDict}
    (h : scan_messages openai_extract_user_content fm messages outcome = ⟨.ok d, 1, []⟩)
    (hblock : truthy (getValD d "safe" (.bool true)) = false) :
    openai_completions_create fm messages outcome =
      ⟨.error (.blocked ⟨.str ("Request blocked: " ++
            pyStrVal (getValD d "reason" (.str "Security threat detected"))),
          pyGet d "threat_type", pyGet d "confidence",
          getValD d "violations" (.list [])⟩), false, 1, []⟩ := by
  simp [openai_completions_create, h, hblock]

/-- A ShrikeScanError escaping the scan propagates out of the Anthropic
create before the provider is invoked. -/
lemma anthropic_create_scan_error {fm : FailMode} {messages : List RawDict}
    {outcome : ScanOutcome} {e : String} {n : Nat} {w : List String}
    (h : scan_messages anthropic_extract_user_content fm messages outcome
      = ⟨.error (.scanError e), n, w⟩) :
    anthropic_messages_create fm messages outcome = ⟨.error (.scanError e), false, n, w⟩ := by
  simp [anthropic_messages_create, h]

/-- Classification of a scan outcome as a round-trip failure: anything
but a parsed 2xx response. -/
def ScanOutcome.isFailure : ScanOutcome → Bool
  | .success _ => false
  | _ => true

/-- The fail-open reason string synthesized for each failure. -/
def failure_reason : ScanOutcome → String
  | .timeout => "Scan timeout, failing open"
  | .httpStatus code => s!"Scan API error: {code}"
  | .failure msg => s!"Scan error: {msg}"
  | .success _ => ""

/-- The ShrikeScanError message raised for each failure under
fail-closed. -/
def closed_error_message : ScanOutcome → String
  | .timeout => "Scan request timed out and fail_mode is \x27closed\x27"
  | .httpStatus code => s!"Scan API returned error: {code}"
  | .failure msg => s!"Scan failed: {msg}"
  | .success _ => ""

/-- The warnings logged for each failure under fail-open: only the
timeout path logs. -/
def open_warnings : ScanOutcome → List String
  | .timeout => ["Scan request timed out, failing open (allowing request)"]
  | _ => []

/-- C1 counterexample: under fail-open, a non-2xx HTTP status failure
returns a safe verdict with a descriptive reason but emits no
warning-level diagnostic, contradicting the claim that every failure
under OPEN emits one. -/
theorem C1_counterexample :
    (remote_scan .OPEN (.httpStatus 500)).warnings = []
    ∧ (remote_scan .OPEN (.httpStatus 500)).result
      = .ok [("safe", .bool true), ("reason", .str "Scan API error: 500")] :=
  ⟨rfl, rfl⟩

/-- C1 (amended): for every scan round-trip failure (timeout, non-2xx
HTTP status, or any other error such as a connection error or malformed
body), the remote scan under OPEN never raises and returns a safe
verdict whose reason describes the failure, emitting a warning-level
diagnostic only in the timeout case (the other failures emit none);
under CLOSED it raises ShrikeScanError describing the failure and the
wrapped provider client is never invoked on that call. -/
theorem C1_failure_policy (fm : FailMode) (outcome : ScanOutcome)
    (hf : outcome.isFailure = true) :
    (fm = .OPEN →
      (remote_scan fm outcome).result
        = .ok [("safe", .bool true), ("reason", .str (failure_reason outcome))]
      ∧ (remote_scan fm outcome).warnings = open_warnings outcome)
    ∧ (fm = .CLOSED →
      (remote_scan fm outcome).result = .error (closed_error_message outcome)
      ∧ (remote_scan fm outcome).warnings = []
      ∧ ∀ messages : List RawDict,
          (scan_messages anthropic_extract_user_content .CLOSED messages outcome).networkCalls = 1 →
          (anthropic_messages_create .CLOSED messages outcome).providerInvoked = false
          ∧ (anthropic_messages_create .CLOSED messages outcome).result
              = .error (.scanError (closed_error_message outcome))) := by
  cases outcome with
  | success body => exact Bool.noConfusion hf
  | timeout =>
      refine ⟨fun hm => by subst hm; exact ⟨rfl, rfl⟩, fun hm => ?_⟩
      subst hm
      refine ⟨rfl, rfl, fun messages hnet => ?_⟩
      have hc := anthropic_create_scan_error
        (scan_messages_networkCalls_one anthropic_extract_user_content .CLOSED messages .timeout hnet)
      rw [hc]
      exact ⟨rfl, rfl⟩
  | httpStatus code =>
      refine ⟨fun hm => by subst hm; exact ⟨rfl, rfl⟩, fun hm => ?_⟩
      subst hm
      refine ⟨rfl, rfl, fun messages hnet => ?_⟩
      have hc := anthropic_create_scan_error
        (scan_messages_networkCalls_one anthropic_extract_user_content .CLOSED messages
          (.httpStatus code) hnet)
      rw [hc]
      exact ⟨rfl, rfl⟩
  | failure msg =>
      refine ⟨fun hm => by subst hm; exact ⟨rfl, rfl⟩, fun hm => ?_⟩
      subst hm
      refine ⟨rfl, rfl, fun messages hnet => ?_⟩
      have hc := anthropic_create_scan_error
        (scan_messages_networkCalls_one anthropic_extract_user_content .CLOSED messages
          (.failure msg) hnet)
      rw [hc]
      exact ⟨rfl, rfl⟩

/-- Witness for C1: the timeout failure under each policy, on a message
list whose extraction is nonblank. -/
theorem C1_failure_policy_witness :
    (remote_scan .OPEN .timeout).result
      = .ok [("safe", .bool true), ("reason", .str "Scan timeout, failing open")]
    ∧ (remote_scan .CLOSED .timeout).result
      = .error "Scan request timed out and fail_mode is \x27closed\x27"
    ∧ (anthropic_messages_create .CLOSED
        [[("role", Val.str "user"), ("content", Val.str "hello")]] .timeout).providerInvoked
      = false :=
  ⟨((C1_failure_policy .OPEN .timeout rfl).1 rfl).1,
   ((C1_failure_policy .CLOSED .timeout rfl).2 rfl).1,
   (((C1_failure_policy .CLOSED .timeout rfl).2 rfl).2.2
      [[("role", Val.str "user"), ("content", Val.str "hello")]] rfl).1⟩

/-- C2: for every adapter entry point (Anthropic create and stream,
OpenAI completions create; the async twins are verbatim copies), if the
sanitized scan verdict is unsafe then the call raises
ShrikeBlockedError carrying the verdict's threat_type and confidence
fields — which are exactly the canonical normalized threat type and the
bucketed confidence of the raw body — and the wrapped provider client
is never invoked. -/
theorem C2_blocked_entry_points (fm : FailMode) (messages : List RawDict)
    (body d : RawDict) (uc1 uc2 : String)
    (ha : anthropic_extract_user_content messages = .ok uc1)
    (hb1 : py_strip_is_empty uc1 = false)
    (ho : openai_extract_user_content messages = .ok uc2)
    (hb2 : py_strip_is_empty uc2 = false)
    (hsan : sanitize_scan_response body = .ok d)
    (hblock : truthy (getValD d "safe" (.bool true)) = false) :
    (anthropic_messages_create fm messages (.success body)).result
      = .error (.blocked ⟨getValD d "reason" (.str "Request blocked by Shrike"),
          pyGet d "threat_type", pyGet d "confidence", .list []⟩)
    ∧ (anthropic_messages_create fm messages (.success body)).providerInvoked = false
    ∧ (anthropic_messages_stream fm messages (.success body)).result
      = .error (.blocked ⟨getValD d "reason" (.str "Request blocked by Shrike"),
          pyGet d "threat_type", pyGet d "confidence", .list []⟩)
    ∧ (anthropic_messages_stream fm messages (.success body)).providerInvoked = false
    ∧ (openai_completions_create fm messages (.success body)).result
      = .error (.blocked ⟨.str ("Request blocked: " ++
            pyStrVal (getValD d "reason" (.str "Security threat detected"))),
          pyGet d "threat_type", pyGet d "confidence",
          getValD d "violations" (.list [])⟩)
    ∧ (openai_completions_create fm messages (.success body)).providerInvoked = false
    ∧ ∃ t c, pyGet d "threat_type" = .str t ∧ pyGet d "confidence" = .str c
        ∧ normalize_threat_type (getValD body "threat_type" (.str "unknown")) = .ok t
        ∧ bucket_confidence (pyGet body "confidence") = .ok c := by
  have hsa := scan_messages_success_eq anthropic_extract_user_content fm messages body d uc1
    ha hb1 hsan
  have hso := scan_messages_success_eq openai_extract_user_content fm messages body d uc2
    ho hb2 hsan
  rw [anthropic_create_blocked hsa hblock, anthropic_stream_blocked hsa hblock,
    openai_create_blocked hso hblock]
  refine ⟨rfl, rfl, rfl, rfl, rfl, rfl, ?_⟩
  rcases sanitize_ok_elim hsan with ⟨hs, rfl⟩ | ⟨hs, t, c, sv, ht, hc, hv, rfl⟩
  · exact Bool.noConfusion hblock
  · exact ⟨t, c, rfl, rfl, ht, hc⟩

/-- The backend response of the blocked scenario. -/
def sqli_raw_response : RawDict :=
  [("safe", Val.bool false), ("threat_type", Val.str "sqli"),
   ("confidence", Val.num (mkRat 95 100))]

/-- Witness for C2 at the blocked scenario: the backend returns safe
False with threat_type "sqli" and confidence 0.95, and the adapters
raise ShrikeBlockedError with threat_type "sql_injection" and
confidence "high" without invoking the provider. -/
theorem C2_blocked_entry_points_witness :
    (anthropic_messages_create .OPEN
        [[("role", Val.str "user"), ("content", Val.str "\x27 OR 1=1 --")]]
        (.success sqli_raw_response)).result
      = .error (.blocked ⟨.str "This query contains potentially dangerous SQL patterns.",
          .str "sql_injection", .str "high", .list []⟩)
    ∧ (anthropic_messages_create .OPEN
        [[("role", Val.str "user"), ("content", Val.str "\x27 OR 1=1 --")]]
        (.success sqli_raw_response)).providerInvoked = false
    ∧ (openai_completions_create .OPEN
        [[("role", Val.str "user"), ("content", Val.str "\x27 OR 1=1 --")]]
        (.success sqli_raw_response)).result
      = .error (.blocked
          ⟨.str "Request blocked: This query contains potentially dangerous SQL patterns.",
          .str "sql_injection", .str "high", .list []⟩) := by
  have h := C2_blocked_entry_points .OPEN
    [[("role", Val.str "user"), ("content", Val.str "\x27 OR 1=1 --")]]
    sqli_raw_response
    [("safe", .bool false), ("threat_type", .str "sql_injection"),
     ("severity", .str "critical"), ("confidence", .str "high"),
     ("reason", .str "This query contains potentially dangerous SQL patterns."),
     ("guidance", .str "This query contains potentially dangerous SQL patterns.")]
    "\x27 OR 1=1 --" "\x27 OR 1=1 --" rfl rfl rfl rfl rfl rfl
  exact ⟨h.1, h.2.1, h.2.2.2.2.1⟩

/-- A message whose role is not the string "user" contributes no text to
either extractor. -/
lemma message_texts_non_user (bt : Val → Option Val) (msg : RawDict)
    (h : getVal msg "role" ≠ some (.str "user")) :
    message_texts bt msg = [] := by
  cases hr : getVal msg "role" with
  | none => simp [message_texts, hr]
  | some v =>
      cases v with
      | str r =>
          have hne : r ≠ "user" := fun he => h (by rw [hr, he])
          simp [message_texts, hr, hne]
      | null => simp [message_texts, hr]
      | bool b => simp [message_texts, hr]
      | num q => simp [message_texts, hr]
      | list l => simp [message_texts, hr]
      | dict kvs => simp [message_texts, hr]

/-- A messages list with no user-role message collects no texts. -/
lemma texts_all_non_user (bt : Val → Option Val) (messages : List RawDict)
    (h : ∀ msg ∈ messages, getVal msg "role" ≠ some (.str "user")) :
    (messages.map (message_texts bt)).flatten = [] := by
  induction messages with
  | nil => rfl
  | cons m rest ih =>
      simp only [List.map_cons, List.flatten_cons]
      rw [message_texts_non_user bt m (h m (List.mem_cons_self m rest)),
        ih (fun msg hm => h msg (List.mem_cons_of_mem m hm))]
      rfl

/-- C9 counterexample: a plain string element inside list content is
ignored by the async OpenAI extractor, which extracts "" instead of the
claimed "A". -/
theorem C9_counterexample :
    openai_extract_user_content
        [[("role", Val.str "user"), ("content", Val.list [Val.str "A"])]] = .ok ""
    ∧ ¬ (openai_extract_user_content
        [[("role", Val.str "user"), ("content", Val.list [Val.str "A"])]] = .ok "A") :=
  ⟨rfl, fun h => absurd (Except.ok.inj h) (by decide)⟩

/-- C9 (amended): both extractors return the newline-join, in message
order, of user-authored text only: non-user messages contribute
nothing, string content contributes itself, and list-content blocks
tagged type "text" contribute their text; but only the Anthropic
extractor also keeps plain string elements of list content — the async
OpenAI extractor ignores them.  The concrete examples hold for both:
user "A", assistant "B", user "C" extracts to "A\nC", and an
all-non-user input extracts to "". -/
theorem C9_extract_user_content (messages : List RawDict) :
    anthropic_extract_user_content
        [[("role", Val.str "user"), ("content", Val.str "A")],
         [("role", Val.str "assistant"), ("content", Val.str "B")],
         [("role", Val.str "user"), ("content", Val.str "C")]] = .ok "A\nC"
    ∧ openai_extract_user_content
        [[("role", Val.str "user"), ("content", Val.str "A")],
         [("role", Val.str "assistant"), ("content", Val.str "B")],
         [("role", Val.str "user"), ("content", Val.str "C")]] = .ok "A\nC"
    ∧ ((∀ msg ∈ messages, getVal msg "role" ≠ some (.str "user")) →
        anthropic_extract_user_content messages = .ok ""
        ∧ openai_extract_user_content messages = .ok "")
    ∧ (∀ s : String, anthropic_block_text (.str s) = some (.str s))
    ∧ (∀ s : String, openai_part_text (.str s) = none)
    ∧ (∀ kvs : RawDict, getVal kvs "type" = some (.str "text") →
        anthropic_block_text (.dict kvs) = some (getValD kvs "text" (.str ""))
        ∧ openai_part_text (.dict kvs) = some (getValD kvs "text" (.str ""))) := by
  refine ⟨rfl, rfl, fun h => ?_, fun s => rfl, fun s => rfl, fun kvs hk => ?_⟩
  · rw [anthropic_extract_user_content, openai_extract_user_content,
      texts_all_non_user anthropic_block_text messages h,
      texts_all_non_user openai_part_text messages h]
    exact ⟨rfl, rfl⟩
  · rw [anthropic_block_text, openai_part_text, hk]
    exact ⟨by simp, by simp⟩

/-- Witness for C9: an all-assistant conversation extracts to the empty
string under both extractors, and a text block with a type tag is kept
by both. -/
theorem C9_extract_user_content_witness :
    anthropic_extract_user_content
        [[("role", Val.str "assistant"), ("content", Val.str "B")]] = .ok ""
    ∧ openai_extract_user_content
        [[("role", Val.str "assistant"), ("content", Val.str "B")]] = .ok ""
    ∧ anthropic_block_text (.dict [("type", Val.str "text"), ("text", Val.str "hi")])
        = some (.str "hi") := by
  have hn : ∀ msg ∈ [[("role", Val.str "assistant"), ("content", Val.str "B")]],
      getVal msg "role" ≠ some (Val.str "user") := by
    intro msg hm
    rw [List.mem_singleton] at hm
    subst hm
    intro hr
    exact absurd (Val.str.inj (Option.some.inj hr)) (by decide)
  have h := (C9_extract_user_content
    [[("role", Val.str "assistant"), ("content", Val.str "B")]]).2.2.1 hn
  refine ⟨h.1, h.2, ?_⟩
  exact ((C9_extract_user_content []).2.2.2.2.2
    [("type", Val.str "text"), ("text", Val.str "hi")] rfl).1

/-- C10: a raw scan response with no "safe" key at all is treated as
safe: sanitize_scan_response defaults safe to True and returns the
safe-shaped output, and both adapters' block decisions let the call
proceed to the wrapped provider under either fail mode, raising no
error. -/
theorem C10_missing_safe_fails_open (fm : FailMode) (raw : RawDict)
    (h : getVal raw "safe" = none) :
    sanitize_scan_response raw
      = .ok [("safe", .bool true), ("reason", getValD raw "reason" (.str ""))]
    ∧ (anthropic_messages_create fm
        [[("role", Val.str "user"), ("content", Val.str "hello")]] (.success raw)).result
      = .ok ()
    ∧ (anthropic_messages_create fm
        [[("role", Val.str "user"), ("content", Val.str "hello")]] (.success raw)).providerInvoked
      = true
    ∧ (openai_completions_create fm
        [[("role", Val.str "user"), ("content", Val.str "hello")]] (.success raw)).result
      = .ok ()
    ∧ (openai_completions_create fm
        [[("role", Val.str "user"), ("content", Val.str "hello")]] (.success raw)).providerInvoked
      = true := by
  have hsafe : truthy (getValD raw "safe" (.bool true)) = true := by
    rw [getValD, h]
    rfl
  have hsan := sanitize_safe_eq raw hsafe
  have hd : truthy (getValD
      [("safe", Val.bool true), ("reason", getValD raw "reason" (.str ""))]
      "safe" (.bool true)) = true := rfl
  have ha := anthropic_create_allowed
    (scan_messages_success_eq anthropic_extract_user_content fm
      [[("role", Val.str "user"), ("content", Val.str "hello")]] raw _ "hello" rfl rfl hsan) hd
  have ho := openai_create_allowed
    (scan_messages_success_eq openai_extract_user_content fm
      [[("role", Val.str "user"), ("content", Val.str "hello")]] raw _ "hello" rfl rfl hsan) hd
  rw [ha, ho]
  exact ⟨hsan, rfl, rfl, rfl, rfl⟩

/-- Witness for C10 at a raw response holding only a reason, under
fail-closed. -/
theorem C10_missing_safe_fails_open_witness :
    sanitize_scan_response [("reason", Val.str "fine")]
      = .ok [("safe", .bool true), ("reason", .str "fine")]
    ∧ (anthropic_messages_create .CLOSED
        [[("role", Val.str "user"), ("content", Val.str "hello")]]
        (.success [("reason", Val.str "fine")])).providerInvoked = true :=
  ⟨(C10_missing_safe_fails_open .CLOSED [("reason", Val.str "fine")] rfl).1,
   (C10_missing_safe_fails_open .CLOSED [("reason", Val.str "fine")] rfl).2.2.1⟩

end ShrikeGuard
